import Mathlib

/-!
Verification of the perfusion-tools calculator core.

The JavaScript sources are shallowly embedded: JS numbers are modelled as
exact rationals (`ℚ`) where the code only uses field arithmetic and
comparisons, and as reals (`ℝ`) where the code calls `Math.pow`/`Math.sqrt`
with fractional exponents.  A JS value that may be `null`/`undefined`/`NaN`
is modelled as an `Option`.  The JS idiom `x || d` (replace a falsy value,
i.e. `0`/`null`/`NaN`, by the default `d`) is modelled explicitly.
-/

/-- JS `clamp(n, min, max) = Math.min(Math.max(n, min), max)` from the
utilities section of `main.js`. -/
def clamp {α : Type} [LinearOrder α] (n lo hi : α) : α :=
  min (max n lo) hi

/-- JS `lerp(a, b, t) = a + (b - a) * t` from `dist/main.js`. -/
def lerp (a b t : ℚ) : ℚ :=
  a + (b - a) * t

/-- One anchor row of `DAMPENED_TEMP_TARGETS_ADULT` in `dist/main.js`. -/
structure TempAnchor where
  temp : ℚ
  relVO2 : ℚ
  recMin : ℚ
  recMax : ℚ
  low : ℚ
  borderline : ℚ
  upper : ℚ
  max : ℚ
deriving DecidableEq

/-- Anchor at 37 °C of `DAMPENED_TEMP_TARGETS_ADULT`. -/
def anchor37 : TempAnchor :=
  { temp := 37, relVO2 := 1, recMin := 280, recMax := 300,
    low := 260, borderline := 300, upper := 450, max := 500 }

/-- Anchor at 32 °C of `DAMPENED_TEMP_TARGETS_ADULT`. -/
def anchor32 : TempAnchor :=
  { temp := 32, relVO2 := 72/100, recMin := 240, recMax := 260,
    low := 210, borderline := 240, upper := 260, max := 520 }

/-- Anchor at 28 °C of `DAMPENED_TEMP_TARGETS_ADULT`. -/
def anchor28 : TempAnchor :=
  { temp := 28, relVO2 := 57/100, recMin := 220, recMax := 240,
    low := 200, borderline := 220, upper := 240, max := 520 }

/-- The anchor table `DAMPENED_TEMP_TARGETS_ADULT` of `dist/main.js`. -/
def DAMPENED_TEMP_TARGETS_ADULT : List TempAnchor :=
  [anchor37, anchor32, anchor28]

/-- The record returned by `getTempAdjustedTargets` in `dist/main.js` (its six
numeric threshold fields; the additional `relVO2` field of the JS record,
`clamp(computeMetabolicFactor(t), 0.35, 1.1)`, is real-valued and is modelled
separately by `computeMetabolicFactor` below — the claims about this function
concern only the thresholds). -/
structure TempTargets where
  recMin : ℚ
  recMax : ℚ
  low : ℚ
  borderline : ℚ
  upper : ℚ
  max : ℚ
deriving DecidableEq

/-- The blended record built inside the anchor loop of
`getTempAdjustedTargets` for the pair `(hi, lo)` of adjacent anchors at the
clamped temperature `t`, with `ratio = (t - lo.temp) / (hi.temp - lo.temp)`
and the hard floor `Math.max(..., 200)` on `low`. -/
def blendPair (hi lo : TempAnchor) (t : ℚ) : TempTargets :=
  let frac := (t - lo.temp) / (hi.temp - lo.temp)
  { recMin := lerp lo.recMin hi.recMin frac
    recMax := lerp lo.recMax hi.recMax frac
    low := max (lerp lo.low hi.low frac) 200
    borderline := lerp lo.borderline hi.borderline frac
    upper := lerp lo.upper hi.upper frac
    max := lerp lo.max hi.max frac }

/-- The `for` loop of `getTempAdjustedTargets`: walk the adjacent anchor
pairs `(row i, row i+1)` in order and return the first blend whose interval
`[lo.temp, hi.temp]` contains `t`; `none` when no pair matches. -/
def loopPairs (t : ℚ) : List TempAnchor → Option TempTargets
  | hi :: lo :: rest =>
    if t ≤ hi.temp ∧ lo.temp ≤ t then some (blendPair hi lo t)
    else loopPairs t (lo :: rest)
  | _ => none

/-- `THRESHOLDS.adult` of `dist/main.js` (numeric fields). -/
def THRESHOLDS_adult : TempTargets :=
  { recMin := 280, recMax := 300, low := 260, borderline := 300,
    upper := 450, max := 500 }

/-- `getTempAdjustedTargets(tempC)` of `dist/main.js`.  The argument is
`none` for a `NaN` temperature (the guard `Number.isNaN(tempC)`), in which
case the function returns `THRESHOLDS.adult` extended with
`recMin/recMax = BASE_TARGETS.adult`; otherwise the temperature is clamped
to the anchor range `[28, 37]`, the anchor-pair loop runs, and the
(unreachable after clamping) fallback returns the last anchor with the
200 floor applied. -/
def getTempAdjustedTargets : Option ℚ → TempTargets
  | none => THRESHOLDS_adult
  | some tempC =>
    (loopPairs (clamp tempC anchor28.temp anchor37.temp)
        DAMPENED_TEMP_TARGETS_ADULT).getD
      { recMin := anchor28.recMin, recMax := anchor28.recMax,
        low := max anchor28.low 200, borderline := anchor28.borderline,
        upper := anchor28.upper, max := anchor28.max }

/-- `calcDO2i(flowLmin, bsa, cao2)` of `main.js`: returns 0 when
`!bsa || bsa <= 0`, else `(flow / bsa) * cao2 * 10`. -/
def calcDO2i (flowLmin bsa cao2 : ℚ) : ℚ :=
  if bsa ≤ 0 then 0 else flowLmin / bsa * cao2 * 10

/-- `calcRequiredFlowLmin(target, bsa, cao2)` of `main.js`: returns 0 when
any of the three operands is falsy (zero), else `target * bsa / (cao2 * 10)`. -/
def calcRequiredFlowLmin (target bsa cao2 : ℚ) : ℚ :=
  if target = 0 ∨ bsa = 0 ∨ cao2 = 0 then 0
  else target * bsa / (cao2 * 10)

/-- The JS idiom `x || d` for a number `x` that may be missing
(`null`/`undefined`, modelled as `none`): a missing or zero (falsy) value is
replaced by the default `d`. -/
def jsOr (x : Option ℚ) (d : ℚ) : ℚ :=
  match x with
  | none => d
  | some v => if v = 0 then d else v

/-- JS `Math.round`: round half toward positive infinity. -/
def jsRound (x : ℚ) : ℤ :=
  Int.floor (x + 1/2)

/-- `computeMetabolicFactor(tempC)` of `main.js` / `dist/main.js`:
`Q10 = 1.9`, `t = clamp(tempC || 37, 20, 39)` — the JS `||` replaces a falsy
temperature (`0`, or `NaN`, which a real-valued model cannot represent) by
37 — then `factor = Math.pow(Q10, (t - 37) / 10)` clamped to `[0.35, 1.1]`. -/
noncomputable def computeMetabolicFactor (tempC : ℝ) : ℝ :=
  let t := clamp (if tempC = 0 then 37 else tempC) 20 39
  clamp ((1.9 : ℝ) ^ ((t - 37) / 10)) (35/100) (11/10)

/-- One row of `TEMP_PROFILES` in `src/unnamed/part_005`. -/
structure TempProfile where
  min : ℚ
  max : ℚ
  label : String
  ciMin : ℚ
  ciMax : ℚ
  vo2Factor : ℚ
  do2Min : ℚ
  do2Max : ℚ
  note : String
deriving DecidableEq

/-- `TEMP_PROFILES[0]`: normothermia, [36, 40). -/
def tp37 : TempProfile :=
  { min := 36, max := 40, label := "37°C (Normothermia)",
    ciMin := 24/10, ciMax := 26/10, vo2Factor := 1,
    do2Min := 280, do2Max := 300,
    note := "Maintain full metabolic demand; adult baseline target." }

/-- `TEMP_PROFILES[1]`: mild hypothermia, [32, 36). -/
def tp32 : TempProfile :=
  { min := 32, max := 36, label := "32°C (Mild hypothermia)",
    ciMin := 2, ciMax := 22/10, vo2Factor := 72/100,
    do2Min := 240, do2Max := 260,
    note := "Lower metabolism, but keep DO₂i 240–260 for renal/organ protection." }

/-- `TEMP_PROFILES[2]`: moderate hypothermia, [28, 32). -/
def tp28 : TempProfile :=
  { min := 28, max := 32, label := "28°C (Moderate hypothermia)",
    ciMin := 16/10, ciMax := 18/10, vo2Factor := 57/100,
    do2Min := 220, do2Max := 240,
    note := "Around 50% metabolic reduction; apply a dampened curve and never drop DO₂i below 200 mL/min/m²." }

/-- `TEMP_PROFILES[3]`: deep hypothermia, [20, 28). -/
def tp20 : TempProfile :=
  { min := 20, max := 28, label := "≤25°C (Deep hypothermia)",
    ciMin := 12/10, ciMax := 15/10, vo2Factor := 45/100,
    do2Min := 200, do2Max := 220,
    note := "Maintain minimum flow; keep DO₂i ≥200 mL/min/m² as a hard floor to protect organs." }

/-- The band table `TEMP_PROFILES` of `src/unnamed/part_005`. -/
def TEMP_PROFILES : List TempProfile :=
  [tp37, tp32, tp28, tp20]

/-- The band-matching test of the `for` loop in `getTempProfile`:
`tempC >= p.min && tempC < p.max`. -/
def bandMatches (tempC : ℚ) (p : TempProfile) : Prop :=
  p.min ≤ tempC ∧ tempC < p.max

instance (tempC : ℚ) (p : TempProfile) : Decidable (bandMatches tempC p) :=
  inferInstanceAs (Decidable (_ ∧ _))

/-- The `for` loop of `getTempProfile`: first band whose half-open interval
contains the temperature. -/
def findProfile (tempC : ℚ) : List TempProfile → Option TempProfile
  | [] => none
  | p :: rest => if bandMatches tempC p then some p else findProfile tempC rest

/-- `getTempProfile(tempC)` of `src/unnamed/part_005`.  A missing
(`null`/`undefined`/`NaN`, all falsy and distinct from `0`) temperature is
modelled as `none` and yields `null`; otherwise the first matching band is
returned, and when no band matches the function falls back to
`TEMP_PROFILES[0]` (which is `tp37`). -/
def getTempProfile : Option ℚ → Option TempProfile
  | none => none
  | some tempC => some ((findProfile tempC TEMP_PROFILES).getD tp37)

/-- Modelled from the claim's words (not from the source): the distance from
a temperature to a band's half-open interval `[min, max)`, used to state
which band is nearest to an out-of-range temperature. -/
def bandDist (tempC : ℚ) (p : TempProfile) : ℚ :=
  if tempC < p.min then p.min - tempC
  else if p.max ≤ tempC then tempC - p.max
  else 0

/-- `computeDevineIbw(heightCm, sex)` of `main.js`: Devine ideal body
weight, `null` unless the height is positive and the sex is recognised. -/
def computeDevineIbw (heightCm : ℚ) (sex : String) : Option ℚ :=
  if ¬ (0 < heightCm) then none
  else if sex = "male" then some (50 + 91/100 * (heightCm - 152.4))
  else if sex = "female" then some (45.5 + 91/100 * (heightCm - 152.4))
  else none

/-- The record returned by `computeHeparinPlan` in `src/unnamed/part_005`
(a superset of the `main.js` version, which lacks `maintenanceRate`,
`bsaUsedForFlow`, `flowRate` and `flowWarning` but is otherwise identical).
The DuBois BSA fields use `Math.pow` with fractional exponents and are
modelled over `ℝ`. -/
structure HeparinPlan where
  bmi : ℚ
  ibw : ℚ
  abw : ℚ
  abwSuper : ℚ
  tbw : ℚ
  dosingWeight : ℚ
  strategyLabel : String
  alertLevel : String
  initialBolus : ℤ
  tbwBolus : ℤ
  difference : ℤ
  isHighDose : Bool
  maintenanceRate : ℤ
  additionalBolus : ℤ
  bsaActual : ℝ
  bsaUsedForFlow : ℝ
  bsaCapped : Prop
  flowRate : ℝ
  flowWarning : Prop

/-- `computeHeparinPlan({heightCm, weightKg, sex, doseUnit, weightStrategy})`
of `src/unnamed/part_005` (and, field for field on the common part,
`main.js`).  The module-level `hepResistance` flag is passed explicitly. -/
noncomputable def computeHeparinPlan (heightCm weightKg : ℚ) (sex : String)
    (doseUnit : ℚ) (weightStrategy : String) (hepResistance : Bool) :
    Option HeparinPlan :=
  if ¬ (0 < heightCm ∧ 0 < weightKg) then none else
  let bmi := weightKg / (heightCm / 100) ^ 2
  let ibw := jsOr (computeDevineIbw heightCm sex) weightKg
  let excess := weightKg - ibw
  let abwStandard := ibw + 2/5 * excess
  let abwSuperObese := ibw + 3/10 * excess
  let sel : ℚ × String × String :=
    if weightStrategy = "auto" then
      if bmi < 30 then (weightKg, "TBW (Standard)", "low")
      else if bmi < 40 then (abwStandard, "ABW (0.4 correction)", "medium")
      else (abwSuperObese, "ABW (0.3 super-obese)", "high")
    else if weightStrategy = "tbw" then (weightKg, "TBW (Manual)", "low")
    else if weightStrategy = "ibw" then (ibw, "IBW (Manual)", "low")
    else if weightStrategy = "abw" then
      (if 40 ≤ bmi then abwSuperObese else abwStandard, "ABW (Manual)", "low")
    else (weightKg, "TBW (Standard)", "low")
  let dosingWeight := sel.1
  let initialBolus := jsRound (dosingWeight * doseUnit)
  let tbwBolus := jsRound (weightKg * doseUnit)
  let bsaActual : ℝ :=
    0.007184 * (heightCm : ℝ) ^ (0.725:ℝ) * (weightKg : ℝ) ^ (0.425:ℝ)
  let bsaUsedForFlow : ℝ :=
    if 35 < bmi ∧ (2.5 : ℝ) < bsaActual then 2.5 else bsaActual
  some { bmi := bmi, ibw := ibw, abw := abwStandard, abwSuper := abwSuperObese,
         tbw := weightKg, dosingWeight := dosingWeight,
         strategyLabel := sel.2.1, alertLevel := sel.2.2,
         initialBolus := initialBolus, tbwBolus := tbwBolus,
         difference := tbwBolus - initialBolus,
         isHighDose := decide (40000 < initialBolus),
         maintenanceRate := jsRound (dosingWeight * (if hepResistance then 18 else 12)),
         additionalBolus := jsRound (dosingWeight * (if hepResistance then 100 else 50)),
         bsaActual := bsaActual,
         bsaUsedForFlow := bsaUsedForFlow,
         bsaCapped := 35 < bmi ∧ (2.5 : ℝ) < bsaActual,
         flowRate := bsaUsedForFlow * 2.4,
         flowWarning := 6 < bsaUsedForFlow * 2.4 }

/-- `PATIENT_TYPE_COEFS` of `main.js`: EBV coefficient (mL/kg) by patient
type; `none` models an absent key. -/
def PATIENT_TYPE_COEFS (pttype : String) : Option ℚ :=
  if pttype = "adult_m" then some 70
  else if pttype = "adult_f" then some 65
  else if pttype = "child" then some 75
  else if pttype = "infant" then some 80
  else if pttype = "neonate" then some 90
  else none

/-- `ebvCoef(pttype) = PATIENT_TYPE_COEFS[pttype] || 70` of `main.js`. -/
def ebvCoef (pttype : String) : ℚ :=
  jsOr (PATIENT_TYPE_COEFS pttype) 70

/-- The record `{ebv, totalVol, hct}` returned by `computePredictedHct`. -/
structure HctResult where
  ebv : ℚ
  totalVol : ℚ
  hct : ℚ
deriving DecidableEq

/-- `computePredictedHct` of `main.js`.  The optional
`ebvCoefValue` override goes through the JS `||` (so a missing or zero
override falls back to `ebvCoef(pttype)`); the `(x || 0)` guards on the
plain numeric arguments are the identity on `ℚ`. -/
def computePredictedHct (pttype : String)
    (weight pre prime fluids removed rbcUnits rbcUnitVol rbcHct : ℚ)
    (ebvCoefValue : Option ℚ) : HctResult :=
  let coef := jsOr ebvCoefValue (ebvCoef pttype)
  let ebv := weight * coef
  let rbcVolAdded := rbcUnits * rbcUnitVol
  let rbcVolume := ebv * (pre / 100) + rbcVolAdded * (rbcHct / 100)
  let totalVol := ebv + prime + fluids + rbcVolAdded - removed
  let hct := if 0 < totalVol then rbcVolume / totalVol * 100 else 0
  { ebv := ebv, totalVol := totalVol, hct := hct }

/-- Numeric value of a digit character. -/
def digitVal (c : Char) : ℤ :=
  (c.toNat : ℤ) - ('0'.toNat : ℤ)

/-- JS `String.prototype.trim()` on the character list of a string: strip
whitespace from both ends. -/
def trimChars (l : List Char) : List Char :=
  ((l.dropWhile Char.isWhitespace).reverse.dropWhile Char.isWhitespace).reverse

/-- `parseTimeToMinutes(str)` of `main.js`: trim the input, strip every
non-digit (`replace(/\D/g, '')`); a 4-digit remainder is read as `HHMM`
(rejecting hour > 23 or minute > 59), otherwise the trimmed input must match
the regex `^(\d{1,2}):([0-5]\d)$` (rejecting hour > 23).  An empty input or
a failed parse yields `none` (JS `null`).  The JS string is modelled as its
character list. -/
def parseTimeToMinutes (str : List Char) : Option ℤ :=
  if str = [] then none else
  let cleaned := trimChars str
  let numericOnly := cleaned.filter Char.isDigit
  if numericOnly.length = 4 then
    match numericOnly with
    | [d1, d2, d3, d4] =>
      let h := 10 * digitVal d1 + digitVal d2
      let m := 10 * digitVal d3 + digitVal d4
      if 23 < h ∨ 59 < m then none else some (h * 60 + m)
    | _ => none
  else
    match cleaned with
    | [a1, c, b1, b2] =>
      if a1.isDigit ∧ c = ':' ∧ ('0' ≤ b1 ∧ b1 ≤ '5') ∧ b2.isDigit then
        let h := digitVal a1
        let m := 10 * digitVal b1 + digitVal b2
        if 23 < h then none else some (h * 60 + m)
      else none
    | [a1, a2, c, b1, b2] =>
      if a1.isDigit ∧ a2.isDigit ∧ c = ':' ∧ ('0' ≤ b1 ∧ b1 ≤ '5') ∧ b2.isDigit then
        let h := 10 * digitVal a1 + digitVal a2
        let m := 10 * digitVal b1 + digitVal b2
        if 23 < h then none else some (h * 60 + m)
      else none
    | _ => none

/-- The duration computation of `updateTimeRow` in `main.js`, applied to the
already-parsed start and end minutes: move the end forward by 24 h when it
precedes the start (and both are below 24 h), take the difference, and add a
further 24 h if it is still negative. -/
def updateTimeRowDuration (startMin endMin : ℤ) : ℤ :=
  let adjustedEnd :=
    if endMin < startMin ∧ endMin < 24 * 60 ∧ startMin < 24 * 60
    then endMin + 24 * 60 else endMin
  let diff := adjustedEnd - startMin
  if diff < 0 then diff + 24 * 60 else diff

/-- `BSA.Mosteller(h, w) = sqrt(h * w / 3600)` of `main.js`. -/
noncomputable def BSA_Mosteller (h w : ℝ) : ℝ :=
  Real.sqrt (h * w / 3600)

/-- `BSA.DuBois(h, w) = 0.007184 * h^0.725 * w^0.425` of `main.js`. -/
noncomputable def BSA_DuBois (h w : ℝ) : ℝ :=
  0.007184 * h ^ (0.725:ℝ) * w ^ (0.425:ℝ)

/-- `BSA.Haycock(h, w) = 0.024265 * h^0.3964 * w^0.5378` of `main.js`. -/
noncomputable def BSA_Haycock (h w : ℝ) : ℝ :=
  0.024265 * h ^ (0.3964:ℝ) * w ^ (0.5378:ℝ)

/-- `BSA.Boyd(h, w)` of `main.js`: weight in grams (`(w || 0) * 1000`, the
guard being the identity on `ℝ`), exponent
`0.7285 - 0.0188 * log10(max(w_g, 1))`, value
`0.0003207 * h^0.3 * w_g^exponent`. -/
noncomputable def BSA_Boyd (h w : ℝ) : ℝ :=
  let wGrams := w * 1000
  let e := 0.7285 - 0.0188 * Real.logb 10 (max wGrams 1)
  0.0003207 * h ^ (0.3:ℝ) * wGrams ^ e

/-- `BSA.GehanGeorge(h, w) = 0.0235 * h^0.42246 * w^0.51456` of `main.js`. -/
noncomputable def BSA_GehanGeorge (h w : ℝ) : ℝ :=
  0.0235 * h ^ (0.42246:ℝ) * w ^ (0.51456:ℝ)

/-- `computeBSA(h, w, method)` of `main.js`: 0 when either input is
non-positive (or falsy), else dispatch on the method name with
`BSA[method] || BSA.Mosteller` (unknown names fall back to Mosteller). -/
noncomputable def computeBSA (h w : ℝ) (method : String) : ℝ :=
  if h ≤ 0 ∨ w ≤ 0 then 0
  else if method = "Mosteller" then BSA_Mosteller h w
  else if method = "DuBois" then BSA_DuBois h w
  else if method = "Haycock" then BSA_Haycock h w
  else if method = "Boyd" then BSA_Boyd h w
  else if method = "GehanGeorge" then BSA_GehanGeorge h w
  else BSA_Mosteller h w

lemma le_clamp {α : Type} [LinearOrder α] (n : α) {lo hi : α} (h : lo ≤ hi) :
    lo ≤ clamp n lo hi :=
  le_min (le_max_right n lo) h

lemma clamp_le {α : Type} [LinearOrder α] (n lo hi : α) :
    clamp n lo hi ≤ hi :=
  min_le_right _ _

lemma clamp_mono {α : Type} [LinearOrder α] (lo hi : α) {a b : α} (h : a ≤ b) :
    clamp a lo hi ≤ clamp b lo hi :=
  min_le_min (max_le_max h le_rfl) le_rfl

lemma loopPairs_floor (t : ℚ) :
    ∀ (l : List TempAnchor) (b : TempTargets), loopPairs t l = some b → 200 ≤ b.low := by
  intro l
  induction l with
  | nil => intro b hb; simp [loopPairs] at hb
  | cons hi rest ih =>
    intro b hb
    cases rest with
    | nil => simp [loopPairs] at hb
    | cons lo rest2 =>
      rw [loopPairs] at hb
      split_ifs at hb with hcond
      · obtain rfl : blendPair hi lo t = b := Option.some_injective _ hb
        simp only [blendPair]
        exact le_max_right _ _
      · exact ih b hb

/-- C1: for every temperature in [20, 39] °C the temperature-adjusted low
DO₂i threshold of `getTempAdjustedTargets` is at least 200 mL/min/m² (the
hard floor invariant). -/
theorem getTempAdjustedTargets_low_floor (T : ℚ) (h1 : 20 ≤ T) (h2 : T ≤ 39) :
    200 ≤ (getTempAdjustedTargets (some T)).low := by
  rcases hl : loopPairs (clamp T anchor28.temp anchor37.temp)
      DAMPENED_TEMP_TARGETS_ADULT with _ | b
  · simp only [getTempAdjustedTargets]
    rw [hl]
    norm_num
  · have hfloor := loopPairs_floor _ _ _ hl
    simp only [getTempAdjustedTargets]
    rw [hl]
    simpa using hfloor

/-- Witness for C1 at T = 30 °C. -/
theorem getTempAdjustedTargets_low_floor_witness :
    (20:ℚ) ≤ 30 ∧ (30:ℚ) ≤ 39 ∧ 200 ≤ (getTempAdjustedTargets (some 30)).low :=
  ⟨by norm_num, by norm_num,
    getTempAdjustedTargets_low_floor 30 (by norm_num) (by norm_num)⟩

/-- C3: the flow ↔ DO₂i pair are exact inverses: for every flow, positive
BSA and positive CaO₂, `calcRequiredFlowLmin (calcDO2i flow bsa cao2) bsa
cao2 = flow` (exactly, in the rational model; the floating-point code agrees
within rounding). -/
theorem requiredFlow_calcDO2i_roundTrip (flow bsa cao2 : ℚ)
    (hb : 0 < bsa) (hc : 0 < cao2) :
    calcRequiredFlowLmin (calcDO2i flow bsa cao2) bsa cao2 = flow := by
  unfold calcDO2i calcRequiredFlowLmin
  rw [if_neg (not_le.mpr hb)]
  by_cases hf : flow = 0
  · subst hf; norm_num
  · have hb0 : bsa ≠ 0 := ne_of_gt hb
    have hc0 : cao2 ≠ 0 := ne_of_gt hc
    have ht : flow / bsa * cao2 * 10 ≠ 0 :=
      mul_ne_zero (mul_ne_zero (div_ne_zero hf hb0) hc0) (by norm_num)
    rw [if_neg (by push_neg; exact ⟨ht, hb0, hc0⟩)]
    field_simp
    ring

/-- Witness for C3 at flow = 5 L/min, BSA = 2 m², CaO₂ = 15. -/
theorem requiredFlow_calcDO2i_roundTrip_witness :
    (0:ℚ) < 2 ∧ (0:ℚ) < 15 ∧
      calcRequiredFlowLmin (calcDO2i 5 2 15) 2 15 = 5 :=
  ⟨by norm_num, by norm_num,
    requiredFlow_calcDO2i_roundTrip 5 2 15 (by norm_num) (by norm_num)⟩

lemma anchor_temps : anchor28.temp = 28 ∧ anchor32.temp = 32 ∧ anchor37.temp = 37 :=
  ⟨rfl, rfl, rfl⟩

lemma clamp_eq_self {α : Type} [LinearOrder α] {n lo hi : α}
    (h1 : lo ≤ n) (h2 : n ≤ hi) : clamp n lo hi = n := by
  rw [clamp, max_eq_left h1, min_eq_left h2]

lemma getTargets_high (T : ℚ) (h32 : 32 ≤ clamp T 28 37) :
    getTempAdjustedTargets (some T) = blendPair anchor37 anchor32 (clamp T 28 37) := by
  have hc2 : clamp T 28 37 ≤ 37 := clamp_le T 28 37
  simp only [getTempAdjustedTargets, DAMPENED_TEMP_TARGETS_ADULT, loopPairs,
    anchor_temps.1, anchor_temps.2.1, anchor_temps.2.2]
  rw [if_pos ⟨hc2, h32⟩]
  rfl

lemma getTargets_low_branch (T : ℚ) (h32 : clamp T 28 37 < 32) :
    getTempAdjustedTargets (some T) = blendPair anchor32 anchor28 (clamp T 28 37) := by
  have hc1 : (28:ℚ) ≤ clamp T 28 37 := le_clamp T (by norm_num)
  simp only [getTempAdjustedTargets, DAMPENED_TEMP_TARGETS_ADULT, loopPairs,
    anchor_temps.1, anchor_temps.2.1, anchor_temps.2.2]
  rw [if_neg (by push_neg; intro _; exact h32), if_pos ⟨le_of_lt h32, hc1⟩]
  rfl

/-- C2 counterexample: the claim fails on the `max` threshold.  At the
anchors themselves, `max` is 520 at 32 °C but only 500 at 37 °C, so for
T1 = 32 ≤ T2 = 37 the `max` threshold at T1 is **not** ≤ the one at T2. -/
theorem getTempAdjustedTargets_mono_counterexample :
    (32:ℚ) ≤ 37 ∧
    ¬ ((getTempAdjustedTargets (some 32)).max ≤ (getTempAdjustedTargets (some 37)).max) := by
  have e32 : clamp (32:ℚ) 28 37 = 32 := clamp_eq_self (by norm_num) (by norm_num)
  have e37 : clamp (37:ℚ) 28 37 = 37 := clamp_eq_self (by norm_num) (by norm_num)
  constructor
  · norm_num
  · rw [getTargets_high 32 (by rw [e32]), getTargets_high 37 (by rw [e37]; norm_num),
      e32, e37]
    norm_num [blendPair, lerp, anchor37, anchor32]

/-- C2 amended: of the six thresholds returned by `getTempAdjustedTargets`,
the five fields `recMin`, `recMax`, `low`, `borderline` and `upper` are
monotonically non-increasing as temperature drops (non-decreasing in the
temperature), for all real temperatures; the `max` threshold is not (see the
counterexample). -/
theorem getTempAdjustedTargets_mono_amended (T1 T2 : ℚ) (h : T1 ≤ T2) :
    (getTempAdjustedTargets (some T1)).recMin ≤ (getTempAdjustedTargets (some T2)).recMin ∧
    (getTempAdjustedTargets (some T1)).recMax ≤ (getTempAdjustedTargets (some T2)).recMax ∧
    (getTempAdjustedTargets (some T1)).low ≤ (getTempAdjustedTargets (some T2)).low ∧
    (getTempAdjustedTargets (some T1)).borderline ≤ (getTempAdjustedTargets (some T2)).borderline ∧
    (getTempAdjustedTargets (some T1)).upper ≤ (getTempAdjustedTargets (some T2)).upper := by
  have hb1 : (28:ℚ) ≤ clamp T1 28 37 := le_clamp T1 (by norm_num)
  have hb1h : clamp T1 28 37 ≤ 37 := clamp_le T1 28 37
  have hb2 : (28:ℚ) ≤ clamp T2 28 37 := le_clamp T2 (by norm_num)
  have hb2h : clamp T2 28 37 ≤ 37 := clamp_le T2 28 37
  have hcc : clamp T1 28 37 ≤ clamp T2 28 37 := clamp_mono 28 37 h
  by_cases k1 : (32:ℚ) ≤ clamp T1 28 37
  · have k2 : (32:ℚ) ≤ clamp T2 28 37 := le_trans k1 hcc
    rw [getTargets_high T1 k1, getTargets_high T2 k2]
    set c1 := clamp T1 28 37 with hc1d
    set c2 := clamp T2 28 37 with hc2d
    simp only [blendPair, lerp, anchor37, anchor32]
    refine ⟨by linarith, by linarith, max_le_max (by linarith) le_rfl,
      by linarith, by linarith⟩
  · by_cases k2 : (32:ℚ) ≤ clamp T2 28 37
    · rw [getTargets_low_branch T1 (not_le.mp k1), getTargets_high T2 k2]
      have k1' : clamp T1 28 37 < 32 := not_le.mp k1
      set c1 := clamp T1 28 37 with hc1d
      set c2 := clamp T2 28 37 with hc2d
      simp only [blendPair, lerp, anchor37, anchor32, anchor28]
      refine ⟨by linarith, by linarith, max_le_max (by linarith) le_rfl,
        by linarith, by linarith⟩
    · rw [getTargets_low_branch T1 (not_le.mp k1), getTargets_low_branch T2 (not_le.mp k2)]
      have k1' : clamp T1 28 37 < 32 := not_le.mp k1
      have k2' : clamp T2 28 37 < 32 := not_le.mp k2
      set c1 := clamp T1 28 37 with hc1d
      set c2 := clamp T2 28 37 with hc2d
      simp only [blendPair, lerp, anchor32, anchor28]
      refine ⟨by linarith, by linarith, max_le_max (by linarith) le_rfl,
        by linarith, by linarith⟩

/-- Witness for the amended C2 at T1 = 30 °C, T2 = 35 °C. -/
theorem getTempAdjustedTargets_mono_amended_witness :
    (30:ℚ) ≤ 35 ∧
    ((getTempAdjustedTargets (some 30)).recMin ≤ (getTempAdjustedTargets (some 35)).recMin ∧
     (getTempAdjustedTargets (some 30)).recMax ≤ (getTempAdjustedTargets (some 35)).recMax ∧
     (getTempAdjustedTargets (some 30)).low ≤ (getTempAdjustedTargets (some 35)).low ∧
     (getTempAdjustedTargets (some 30)).borderline ≤ (getTempAdjustedTargets (some 35)).borderline ∧
     (getTempAdjustedTargets (some 30)).upper ≤ (getTempAdjustedTargets (some 35)).upper) :=
  ⟨by norm_num, getTempAdjustedTargets_mono_amended 30 35 (by norm_num)⟩

/-- C4 counterexample: the claim's equation fails at temperature 0 °C.  The
code computes `clamp(tempC || 37, 20, 39)`, and `0` is falsy in JS, so a
temperature of exactly 0 is silently replaced by 37 and the factor is 1.0;
the claim's formula `clamp(1.9^((clamp(0,20,39) − 37)/10), 0.35, 1.1)`
instead gives `clamp(1.9^(−1.7), ...) = 0.35`. -/
theorem computeMetabolicFactor_counterexample :
    computeMetabolicFactor 0 = 1 ∧
    clamp ((1.9:ℝ) ^ ((clamp (0:ℝ) 20 39 - 37) / 10)) (35/100) (11/10) ≠ 1 := by
  constructor
  · simp only [computeMetabolicFactor]
    norm_num
    rw [clamp_eq_self (by norm_num : (20:ℝ) ≤ 37) (by norm_num : (37:ℝ) ≤ 39)]
    rw [show ((37:ℝ) - 37) / 10 = 0 by norm_num, Real.rpow_zero,
      clamp_eq_self (by norm_num) (by norm_num)]
  · have e20 : clamp (0:ℝ) 20 39 = 20 := by
      rw [clamp, max_eq_right (by norm_num), min_eq_left (by norm_num)]
    rw [e20, show ((20:ℝ) - 37) / 10 = -(17/10) by norm_num]
    have hpos : (0:ℝ) < 1.9 := by norm_num
    have hkey : (20/7 : ℝ) < (1.9:ℝ) ^ ((17:ℝ)/10) := by
      have hpow : ((1.9:ℝ) ^ ((17:ℝ)/10)) ^ (10:ℕ) = (1.9:ℝ) ^ (17:ℕ) := by
        rw [← Real.rpow_natCast ((1.9:ℝ) ^ ((17:ℝ)/10)) 10,
          ← Real.rpow_mul (le_of_lt hpos)]
        rw [show (17:ℝ)/10 * ((10:ℕ):ℝ) = ((17:ℕ):ℝ) by norm_num, Real.rpow_natCast]
      have h10 : ((20:ℝ)/7) ^ (10:ℕ) < ((1.9:ℝ) ^ ((17:ℝ)/10)) ^ (10:ℕ) := by
        rw [hpow]
        norm_num
      exact lt_of_pow_lt_pow_left₀ 10 (le_of_lt (Real.rpow_pos_of_pos hpos _)) h10
    have hinv : (1.9:ℝ) ^ (-((17:ℝ)/10)) < 35/100 := by
      rw [Real.rpow_neg (le_of_lt hpos)]
      calc ((1.9:ℝ) ^ ((17:ℝ)/10))⁻¹ < ((20:ℝ)/7)⁻¹ :=
            inv_strictAnti₀ (by norm_num) hkey
        _ = 35/100 := by norm_num
    rw [clamp, max_eq_right (le_of_lt hinv), min_eq_left (by norm_num)]
    norm_num

/-- C4 amended: for every nonzero temperature T,
`computeMetabolicFactor T = clamp (1.9 ^ ((clamp T 20 39 − 37)/10)) 0.35 1.1`
(at T = 0 the JS falsy-default replaces the input by 37, see the
counterexample); the factor is 1.0 at 37 °C, and for every temperature the
factor lies in [0.35, 1.1]. -/
theorem computeMetabolicFactor_amended (T : ℝ) (hT : T ≠ 0) :
    computeMetabolicFactor T =
      clamp ((1.9:ℝ) ^ ((clamp T 20 39 - 37) / 10)) (35/100) (11/10) ∧
    computeMetabolicFactor 37 = 1 ∧
    (∀ S : ℝ, 35/100 ≤ computeMetabolicFactor S ∧ computeMetabolicFactor S ≤ 11/10) := by
  refine ⟨?_, ?_, ?_⟩
  · simp only [computeMetabolicFactor, if_neg hT]
  · simp only [computeMetabolicFactor, if_neg (by norm_num : (37:ℝ) ≠ 0)]
    rw [clamp_eq_self (by norm_num : (20:ℝ) ≤ 37) (by norm_num : (37:ℝ) ≤ 39)]
    rw [show ((37:ℝ) - 37) / 10 = 0 by norm_num, Real.rpow_zero,
      clamp_eq_self (by norm_num) (by norm_num)]
  · intro S
    simp only [computeMetabolicFactor]
    exact ⟨le_clamp _ (by norm_num), clamp_le _ _ _⟩

/-- Witness for the amended C4 at T = 25 °C. -/
theorem computeMetabolicFactor_amended_witness :
    (25:ℝ) ≠ 0 ∧
    computeMetabolicFactor 25 =
      clamp ((1.9:ℝ) ^ ((clamp (25:ℝ) 20 39 - 37) / 10)) (35/100) (11/10) :=
  ⟨by norm_num, (computeMetabolicFactor_amended 25 (by norm_num)).1⟩

/-- C5 counterexample: for the out-of-range temperature 10 °C,
`getTempProfile` returns the first (normothermic, [36,40)) band, although
the deep-hypothermia band [20,28) is strictly nearer (distance 10 versus
26), so the "clamped to the nearest band" part of the claim is false. -/
theorem getTempProfile_nearest_counterexample :
    getTempProfile (some 10) = some tp37 ∧ bandDist 10 tp20 < bandDist 10 tp37 := by
  constructor
  · have n1 : ¬ bandMatches (10:ℚ) tp37 := by norm_num [bandMatches, tp37]
    have n2 : ¬ bandMatches (10:ℚ) tp32 := by norm_num [bandMatches, tp32]
    have n3 : ¬ bandMatches (10:ℚ) tp28 := by norm_num [bandMatches, tp28]
    have n4 : ¬ bandMatches (10:ℚ) tp20 := by norm_num [bandMatches, tp20]
    simp only [getTempProfile, TEMP_PROFILES, findProfile]
    rw [if_neg n1, if_neg n2, if_neg n3, if_neg n4]
    rfl
  · norm_num [bandDist, tp20, tp37]

/-- C5 amended: `TEMP_PROFILES` partitions [20,40) °C into four contiguous
non-overlapping half-open bands — for every temperature in [20,40) exactly
one band matches and `getTempProfile` returns it; for any temperature
outside [20,40) the function falls back to the **first** (normothermic)
band, not the nearest one. -/
theorem getTempProfile_partition_amended :
    (∀ t : ℚ, 20 ≤ t → t < 40 →
      ∃ p, p ∈ TEMP_PROFILES ∧ bandMatches t p ∧ getTempProfile (some t) = some p ∧
        ∀ q ∈ TEMP_PROFILES, bandMatches t q → q = p) ∧
    (∀ t : ℚ, t < 20 ∨ 40 ≤ t → getTempProfile (some t) = some tp37) := by
  constructor
  · intro t h20 h40
    by_cases h36 : (36:ℚ) ≤ t
    · refine ⟨tp37, by simp [TEMP_PROFILES], ⟨h36, h40⟩, ?_, ?_⟩
      · simp only [getTempProfile, TEMP_PROFILES, findProfile]
        rw [if_pos (show bandMatches t tp37 from ⟨h36, h40⟩)]
        rfl
      · intro q hq hbm
        simp only [TEMP_PROFILES, List.mem_cons, List.not_mem_nil, or_false] at hq
        rcases hq with rfl | rfl | rfl | rfl
        · rfl
        · simp only [bandMatches, tp32] at hbm; linarith [hbm.2]
        · simp only [bandMatches, tp28] at hbm; linarith [hbm.2]
        · simp only [bandMatches, tp20] at hbm; linarith [hbm.2]
    · have h36' : t < 36 := not_le.mp h36
      have n1 : ¬ bandMatches t tp37 := by
        intro hm; simp only [bandMatches, tp37] at hm; linarith [hm.1]
      by_cases h32 : (32:ℚ) ≤ t
      · refine ⟨tp32, by simp [TEMP_PROFILES], ⟨h32, h36'⟩, ?_, ?_⟩
        · simp only [getTempProfile, TEMP_PROFILES, findProfile]
          rw [if_neg n1, if_pos (show bandMatches t tp32 from ⟨h32, h36'⟩)]
          rfl
        · intro q hq hbm
          simp only [TEMP_PROFILES, List.mem_cons, List.not_mem_nil, or_false] at hq
          rcases hq with rfl | rfl | rfl | rfl
          · exact absurd hbm n1
          · rfl
          · simp only [bandMatches, tp28] at hbm; linarith [hbm.2]
          · simp only [bandMatches, tp20] at hbm; linarith [hbm.2]
      · have h32' : t < 32 := not_le.mp h32
        have n2 : ¬ bandMatches t tp32 := by
          intro hm; simp only [bandMatches, tp32] at hm; linarith [hm.1]
        by_cases h28 : (28:ℚ) ≤ t
        · refine ⟨tp28, by simp [TEMP_PROFILES], ⟨h28, h32'⟩, ?_, ?_⟩
          · simp only [getTempProfile, TEMP_PROFILES, findProfile]
            rw [if_neg n1, if_neg n2, if_pos (show bandMatches t tp28 from ⟨h28, h32'⟩)]
            rfl
          · intro q hq hbm
            simp only [TEMP_PROFILES, List.mem_cons, List.not_mem_nil, or_false] at hq
            rcases hq with rfl | rfl | rfl | rfl
            · exact absurd hbm n1
            · exact absurd hbm n2
            · rfl
            · simp only [bandMatches, tp20] at hbm; linarith [hbm.2]
        · have h28' : t < 28 := not_le.mp h28
          have n3 : ¬ bandMatches t tp28 := by
            intro hm; simp only [bandMatches, tp28] at hm; linarith [hm.1]
          refine ⟨tp20, by simp [TEMP_PROFILES], ⟨h20, h28'⟩, ?_, ?_⟩
          · simp only [getTempProfile, TEMP_PROFILES, findProfile]
            rw [if_neg n1, if_neg n2, if_neg n3,
              if_pos (show bandMatches t tp20 from ⟨h20, h28'⟩)]
            rfl
          · intro q hq hbm
            simp only [TEMP_PROFILES, List.mem_cons, List.not_mem_nil, or_false] at hq
            rcases hq with rfl | rfl | rfl | rfl
            · exact absurd hbm n1
            · exact absurd hbm n2
            · exact absurd hbm n3
            · rfl
  · intro t ht
    have n1 : ¬ bandMatches t tp37 := by
      intro hm; simp only [bandMatches, tp37] at hm;       rcases ht with h | h
      · linarith [hm.1]
      · linarith [hm.2]
    have n2 : ¬ bandMatches t tp32 := by
      intro hm; simp only [bandMatches, tp32] at hm;       rcases ht with h | h
      · linarith [hm.1]
      · linarith [hm.2]
    have n3 : ¬ bandMatches t tp28 := by
      intro hm; simp only [bandMatches, tp28] at hm;       rcases ht with h | h
      · linarith [hm.1]
      · linarith [hm.2]
    have n4 : ¬ bandMatches t tp20 := by
      intro hm; simp only [bandMatches, tp20] at hm;       rcases ht with h | h
      · linarith [hm.1]
      · linarith [hm.2]
    simp only [getTempProfile, TEMP_PROFILES, findProfile]
    rw [if_neg n1, if_neg n2, if_neg n3, if_neg n4]
    rfl

/-- Witness for the amended C5 at t = 30 °C (in range) and t = 50 °C
(out of range). -/
theorem getTempProfile_partition_amended_witness :
    ((20:ℚ) ≤ 30 ∧ (30:ℚ) < 40 ∧
      (∃ p, p ∈ TEMP_PROFILES ∧ bandMatches 30 p ∧ getTempProfile (some 30) = some p ∧
        ∀ q ∈ TEMP_PROFILES, bandMatches 30 q → q = p)) ∧
    (((50:ℚ) < 20 ∨ (40:ℚ) ≤ 50) ∧ getTempProfile (some 50) = some tp37) :=
  ⟨⟨by norm_num, by norm_num,
      getTempProfile_partition_amended.1 30 (by norm_num) (by norm_num)⟩,
   ⟨Or.inr (by norm_num),
      getTempProfile_partition_amended.2 50 (Or.inr (by norm_num))⟩⟩

/-- C6: heparin dosing-weight selection with strategy `"auto"`: for all
positive heights and weights, BMI < 30 selects TBW (total body weight),
30 ≤ BMI < 40 selects ABW with the 0.4 correction `IBW + 0.4·(TBW − IBW)`,
and BMI ≥ 40 selects ABW with the 0.3 correction; the boundaries are
inclusive of the higher-BMI branch (exactly 30 → ABW(0.4), exactly 40 →
ABW(0.3)). -/
theorem computeHeparinPlan_auto_strategy (heightCm weightKg doseUnit : ℚ)
    (sex : String) (hres : Bool) (hh : 0 < heightCm) (hw : 0 < weightKg) :
    ∃ P, computeHeparinPlan heightCm weightKg sex doseUnit "auto" hres = some P ∧
      P.bmi = weightKg / (heightCm / 100) ^ 2 ∧ P.tbw = weightKg ∧
      (P.bmi < 30 → P.dosingWeight = P.tbw) ∧
      (30 ≤ P.bmi → P.bmi < 40 → P.dosingWeight = P.ibw + 2/5 * (P.tbw - P.ibw)) ∧
      (40 ≤ P.bmi → P.dosingWeight = P.ibw + 3/10 * (P.tbw - P.ibw)) := by
  unfold computeHeparinPlan
  rw [if_neg (not_not_intro ⟨hh, hw⟩)]
  refine ⟨_, rfl, rfl, rfl, ?_, ?_, ?_⟩
  · intro hb
    dsimp only at hb ⊢
    rw [if_pos rfl, if_pos hb]
  · intro hb1 hb2
    dsimp only at hb1 hb2 ⊢
    rw [if_pos rfl, if_neg (not_lt.mpr hb1), if_pos hb2]
  · intro hb
    dsimp only at hb ⊢
    rw [if_pos rfl, if_neg (not_lt.mpr (by linarith)), if_neg (not_lt.mpr hb)]

/-- Witness for C6 at height 100 cm, weight 30 kg (BMI exactly 30). -/
theorem computeHeparinPlan_auto_strategy_witness :
    (0:ℚ) < 100 ∧ (0:ℚ) < 30 ∧
    ∃ P, computeHeparinPlan 100 30 "male" 300 "auto" false = some P ∧
      P.bmi = 30 / ((100:ℚ) / 100) ^ 2 ∧ P.tbw = 30 ∧
      (P.bmi < 30 → P.dosingWeight = P.tbw) ∧
      (30 ≤ P.bmi → P.bmi < 40 → P.dosingWeight = P.ibw + 2/5 * (P.tbw - P.ibw)) ∧
      (40 ≤ P.bmi → P.dosingWeight = P.ibw + 3/10 * (P.tbw - P.ibw)) :=
  ⟨by norm_num, by norm_num,
    computeHeparinPlan_auto_strategy 100 30 300 "male" false
      (by norm_num) (by norm_num)⟩

/-- C7: `computePredictedHct` implements the mass-balance dilution model
exactly: TotalVolume = EBV + primeVolume + fluids + RBCVolumeAdded − removed
and PredictedHct% = RBCVolumeTotal/TotalVolume·100 when TotalVolume > 0,
else 0; in particular for weight 70 kg, coefficient 70 (patient type
`"adult"` is unknown, so the 70 mL/kg default applies), preop Hct 30 % and
prime 1500 mL, EBV = 4900, TotalVolume = 6400 and predicted
Hct = 735/32 = 22.96875 ≈ 22.97 %. -/
theorem computePredictedHct_massBalance :
    (∀ (pt : String) (w pre prime fl rm ru ruv rh : ℚ) (ov : Option ℚ),
      (computePredictedHct pt w pre prime fl rm ru ruv rh ov).totalVol =
        (computePredictedHct pt w pre prime fl rm ru ruv rh ov).ebv
          + prime + fl + ru * ruv - rm ∧
      (computePredictedHct pt w pre prime fl rm ru ruv rh ov).hct =
        (if 0 < (computePredictedHct pt w pre prime fl rm ru ruv rh ov).totalVol
         then ((computePredictedHct pt w pre prime fl rm ru ruv rh ov).ebv * (pre/100)
                + ru * ruv * (rh/100))
              / (computePredictedHct pt w pre prime fl rm ru ruv rh ov).totalVol * 100
         else 0)) ∧
    (computePredictedHct "adult" 70 30 1500 0 0 0 300 60 none).ebv = 4900 ∧
    (computePredictedHct "adult" 70 30 1500 0 0 0 300 60 none).totalVol = 6400 ∧
    (computePredictedHct "adult" 70 30 1500 0 0 0 300 60 none).hct = 735/32 := by
  refine ⟨fun pt w pre prime fl rm ru ruv rh ov => ⟨rfl, rfl⟩, ?_, ?_, ?_⟩
  · simp [computePredictedHct, jsOr, ebvCoef, PATIENT_TYPE_COEFS]
    norm_num
  · simp [computePredictedHct, jsOr, ebvCoef, PATIENT_TYPE_COEFS]
    norm_num
  · simp [computePredictedHct, jsOr, ebvCoef, PATIENT_TYPE_COEFS]
    norm_num

/-- C8: for every pair of valid times (hour ≤ 23, minute ≤ 59) the duration
computed by the `updateTimeRow` core equals (end − start) mod 1440 minutes
and is non-negative (an end before the start is read as crossing midnight);
in particular "23:50" → 1430 and "00:10" → 10 parse correctly and give a
20-minute duration, and "08:00" to "08:00" gives 0. -/
theorem updateTimeRowDuration_mod1440 :
    (∀ a1 b1 a2 b2 : ℤ, 0 ≤ a1 → a1 ≤ 23 → 0 ≤ b1 → b1 ≤ 59 →
      0 ≤ a2 → a2 ≤ 23 → 0 ≤ b2 → b2 ≤ 59 →
      updateTimeRowDuration (a1 * 60 + b1) (a2 * 60 + b2) =
        ((a2 * 60 + b2) - (a1 * 60 + b1)) % 1440 ∧
      0 ≤ updateTimeRowDuration (a1 * 60 + b1) (a2 * 60 + b2)) ∧
    parseTimeToMinutes "23:50".toList = some 1430 ∧
    parseTimeToMinutes "00:10".toList = some 10 ∧
    updateTimeRowDuration 1430 10 = 20 ∧
    parseTimeToMinutes "08:00".toList = some 480 ∧
    updateTimeRowDuration 480 480 = 0 := by
  refine ⟨?_, by decide, by decide, by decide, by decide, by decide⟩
  intro a1 b1 a2 b2 ha1 ha2 hb1 hb2 hc1 hc2 hd1 hd2
  unfold updateTimeRowDuration
  dsimp only
  split_ifs <;> constructor <;> omega

/-- Witness for C8 at start 23:50, end 00:10 (midnight wrap). -/
theorem updateTimeRowDuration_mod1440_witness :
    ((0:ℤ) ≤ 23 ∧ (23:ℤ) ≤ 23 ∧ (0:ℤ) ≤ 50 ∧ (50:ℤ) ≤ 59 ∧
     (0:ℤ) ≤ 0 ∧ (0:ℤ) ≤ 23 ∧ (0:ℤ) ≤ 10 ∧ (10:ℤ) ≤ 59) ∧
    (updateTimeRowDuration (23 * 60 + 50) (0 * 60 + 10) =
        ((0 * 60 + 10) - (23 * 60 + 50)) % 1440 ∧
     0 ≤ updateTimeRowDuration (23 * 60 + 50) (0 * 60 + 10)) :=
  ⟨by norm_num,
    updateTimeRowDuration_mod1440.1 23 50 0 10 (by norm_num) (by norm_num)
      (by norm_num) (by norm_num) (by norm_num) (by norm_num)
      (by norm_num) (by norm_num)⟩

/-- C9: `computeBSA` returns a positive (hence finite, in the real model)
value for every positive height and weight under every method; returns 0
when either input is non-positive; an unknown method name falls back to the
Mosteller formula; and `computeBSA 180 80 "Mosteller" = 2` exactly. -/
theorem computeBSA_props :
    (∀ (h w : ℝ) (m : String), 0 < h → 0 < w → 0 < computeBSA h w m) ∧
    (∀ (h w : ℝ) (m : String), h ≤ 0 ∨ w ≤ 0 → computeBSA h w m = 0) ∧
    (∀ (h w : ℝ) (m : String), m ≠ "Mosteller" → m ≠ "DuBois" → m ≠ "Haycock" →
      m ≠ "Boyd" → m ≠ "GehanGeorge" → computeBSA h w m = computeBSA h w "Mosteller") ∧
    computeBSA 180 80 "Mosteller" = 2 := by
  refine ⟨?_, ?_, ?_, ?_⟩
  · intro h w m hh hw
    unfold computeBSA
    rw [if_neg (by push_neg; exact ⟨hh, hw⟩)]
    split_ifs
    · simp only [BSA_Mosteller]
      positivity
    · simp only [BSA_DuBois]
      positivity
    · simp only [BSA_Haycock]
      positivity
    · simp only [BSA_Boyd]
      positivity
    · simp only [BSA_GehanGeorge]
      positivity
    · simp only [BSA_Mosteller]
      positivity
  · intro h w m hz
    unfold computeBSA
    rw [if_pos hz]
  · intro h w m n1 n2 n3 n4 n5
    unfold computeBSA
    by_cases hz : h ≤ 0 ∨ w ≤ 0
    · rw [if_pos hz, if_pos hz]
    · rw [if_neg hz, if_neg hz, if_neg n1, if_neg n2, if_neg n3, if_neg n4,
        if_neg n5, if_pos rfl]
  · unfold computeBSA
    rw [if_neg (by norm_num), if_pos rfl]
    unfold BSA_Mosteller
    rw [show ((180:ℝ) * 80 / 3600) = 2^2 by norm_num, Real.sqrt_sq (by norm_num)]

/-- Witness for C9: positivity at (170, 70, DuBois), the zero sentinel at
height −1, and the Mosteller fallback for the unknown method `"weird"`. -/
theorem computeBSA_props_witness :
    ((0:ℝ) < 170 ∧ (0:ℝ) < 70 ∧ 0 < computeBSA 170 70 "DuBois") ∧
    (((-1:ℝ) ≤ 0 ∨ (70:ℝ) ≤ 0) ∧ computeBSA (-1) 70 "Haycock" = 0) ∧
    computeBSA 180 80 "weird" = computeBSA 180 80 "Mosteller" :=
  ⟨⟨by norm_num, by norm_num,
      computeBSA_props.1 170 70 "DuBois" (by norm_num) (by norm_num)⟩,
   ⟨Or.inl (by norm_num),
      computeBSA_props.2.1 (-1) 70 "Haycock" (Or.inl (by norm_num))⟩,
   computeBSA_props.2.2.1 180 80 "weird" (by decide) (by decide) (by decide)
     (by decide) (by decide)⟩

/-- C10: in `computePredictedHct` an explicit EBV-coefficient override of 0
behaves exactly like an absent override (both fall back to the patient-type
default, which is 70 mL/kg for an unknown type), and the coefficient
actually used — `ebvCoefValue || ebvCoef(pttype)` — is never 0, so the
caller cannot force the EBV coefficient to 0 through the override. -/
theorem computePredictedHct_override :
    (∀ (pt : String) (w pre prime fl rm ru ruv rh : ℚ),
      computePredictedHct pt w pre prime fl rm ru ruv rh (some 0) =
        computePredictedHct pt w pre prime fl rm ru ruv rh none) ∧
    (∀ pt : String, pt ≠ "adult_m" → pt ≠ "adult_f" → pt ≠ "child" →
      pt ≠ "infant" → pt ≠ "neonate" → ebvCoef pt = 70) ∧
    (∀ (ov : Option ℚ) (pt : String), jsOr ov (ebvCoef pt) ≠ 0) ∧
    (∀ (pt : String) (w pre prime fl rm ru ruv rh : ℚ) (ov : Option ℚ),
      (computePredictedHct pt w pre prime fl rm ru ruv rh ov).ebv =
        w * jsOr ov (ebvCoef pt)) := by
  have hbase : ∀ pt : String, ebvCoef pt ≠ 0 := by
    intro pt
    unfold ebvCoef PATIENT_TYPE_COEFS
    split_ifs <;> simp [jsOr]
  refine ⟨?_, ?_, ?_, ?_⟩
  · intro pt w pre prime fl rm ru ruv rh
    simp [computePredictedHct, jsOr]
  · intro pt n1 n2 n3 n4 n5
    unfold ebvCoef PATIENT_TYPE_COEFS
    rw [if_neg n1, if_neg n2, if_neg n3, if_neg n4, if_neg n5]
    rfl
  · intro ov pt
    match ov with
    | none => simpa [jsOr] using hbase pt
    | some v =>
      by_cases hv : v = 0
      · simpa [jsOr, hv] using hbase pt
      · simp [jsOr, hv]
  · intro pt w pre prime fl rm ru ruv rh ov
    rfl

/-- Witness for C10: the unknown patient type `"unknown"` gets the default
coefficient 70. -/
theorem computePredictedHct_override_witness :
    ("unknown" ≠ "adult_m" ∧ "unknown" ≠ "adult_f" ∧ "unknown" ≠ "child" ∧
     "unknown" ≠ "infant" ∧ "unknown" ≠ "neonate") ∧ ebvCoef "unknown" = 70 :=
  ⟨⟨by decide, by decide, by decide, by decide, by decide⟩,
   computePredictedHct_override.2.1 "unknown" (by decide) (by decide) (by decide)
     (by decide) (by decide)⟩
